import Mathlib

/-!
Verification of the Smart Triage Agent (Flask app `app.py` + `agent_brain.py`).

The agent brain keeps an in-memory mock database with three registries
(tickets, invoices, calendar), exposes four tool functions
(`create_ticket`, `generate_invoice`, `check_calendar`, `send_reply`),
and a dispatch loop `process_message` that tries a fixed list of candidate
models, parses the first successful reply into `\x7bthought, tool, args\x7d`,
executes the matching tool and returns a result envelope.

The external model provider is modelled as an oracle
`String → Except String ParsedReply`: for each candidate model name it
either yields the parsed structured reply (the `generate_content` +
`json.loads` + field extraction succeeded) or an exception message
(anything raised inside the `try` block).  The diagnostic
`genai.list_models()` call is a second oracle `Except String (List String)`.
Python values that flow through `args` dictionaries are modelled by
`PyVal` (None, strings, numbers), with Python truthiness and `str()`
formatting made explicit.  `datetime.now()` is threaded in as an explicit
`now : String` argument.  Each embedded step also records the list of
candidate models actually contacted, so that claims of the form
"no later candidate is contacted" are expressible.
-/

/-- A Python value as it appears in the parsed JSON args: `None`, a string,
or a number. -/
inductive PyVal where
  | none
  | str (s : String)
  | num (n : Int)
deriving DecidableEq, Repr

/-- Python `str()` of a `PyVal`, as used by f-string interpolation. -/
def PyVal.pyStr : PyVal → String
  | .none => "None"
  | .str s => s
  | .num n => toString n

/-- Python truthiness (`if not x`) restricted to the modelled values. -/
def PyVal.truthy : PyVal → Bool
  | .none => false
  | .str s => s != ""
  | .num n => n != 0

/-- The args dictionary of a parsed model reply (`result_json.get("args", {})`). -/
abbrev Args := List (String × PyVal)

/-- Dictionary lookup: first binding of the key, if any. -/
def Args.find : Args → String → Option PyVal
  | [], _ => Option.none
  | (k, v) :: rest, key => if k = key then Option.some v else Args.find rest key

/-- Python `dict.get(key)`: `None` when the key is absent. -/
def Args.get (a : Args) (k : String) : PyVal := (Args.find a k).getD PyVal.none

/-- Python `dict.get(key, default)`. -/
def Args.getD (a : Args) (k : String) (d : PyVal) : PyVal := (Args.find a k).getD d

/-- A ticket record as built by `create_ticket`. -/
structure Ticket where
  id : String
  summary : PyVal
  priority : PyVal
  status : String
  created_at : String
deriving DecidableEq, Repr

/-- An invoice record as built by `generate_invoice`. -/
structure Invoice where
  id : String
  client : PyVal
  amount : PyVal
  status : String
  created_at : String
deriving DecidableEq, Repr

/-- A calendar entry of the mock database. -/
structure CalendarEvent where
  time : String
  event : String
deriving DecidableEq, Repr

/-- The mock database `db` of `agent_brain.py`: three registries. -/
structure Db where
  tickets : List Ticket
  invoices : List Invoice
  calendar : List CalendarEvent
deriving DecidableEq, Repr

/-- The initial value of `db`: empty tickets and invoices, calendar seeded
with two fixed events. -/
def initial_db : Db :=
  { tickets := []
    invoices := []
    calendar := [
      { time := "2023-10-27 10:00", event := "Team Standup" },
      { time := "2023-10-27 14:00", event := "Client Call" }] }

/-- Embedding of `create_ticket(summary, priority)`: appends a ticket whose id
is `TICK-` followed by the current registry length plus 101, and returns the
confirmation string. -/
def create_ticket (db : Db) (now : String) (summary : PyVal) (priority : PyVal) :
    Db × String :=
  let ticket_id := "TICK-" ++ Nat.repr (db.tickets.length + 101)
  let ticket : Ticket :=
    { id := ticket_id, summary := summary, priority := priority,
      status := "Open", created_at := now }
  ({ db with tickets := db.tickets ++ [ticket] },
   "Ticket created successfully. ID: " ++ ticket_id)

/-- Embedding of `generate_invoice(client_name, amount)`. -/
def generate_invoice (db : Db) (now : String) (client_name : PyVal) (amount : PyVal) :
    Db × String :=
  let invoice_id := "INV-" ++ Nat.repr (db.invoices.length + 1001)
  let invoice : Invoice :=
    { id := invoice_id, client := client_name, amount := amount,
      status := "Sent", created_at := now }
  ({ db with invoices := db.invoices ++ [invoice] },
   "Invoice generated for " ++ client_name.pyStr ++ " for $" ++ amount.pyStr ++
     ". ID: " ++ invoice_id)

/-- `json.dumps` of one calendar event dictionary (keys in insertion order). -/
def dumpEvent (e : CalendarEvent) : String :=
  "\x7b\"time\": \"" ++ e.time ++ "\", \"event\": \"" ++ e.event ++ "\"\x7d"

/-- `json.dumps` of the calendar list (default separators). -/
def dumpsCalendar (l : List CalendarEvent) : String :=
  "[" ++ String.intercalate ", " (l.map dumpEvent) ++ "]"

/-- Embedding of `check_calendar(date_str)`: read-only; the `date_str`
argument is ignored by the implementation. -/
def check_calendar (db : Db) (date_str : PyVal) : String :=
  let _ := date_str
  if db.calendar = [] then "Calendar is completely free."
  else "Existing events: " ++ dumpsCalendar db.calendar

/-- Embedding of `send_reply(message)`. -/
def send_reply (message : PyVal) : String :=
  "Reply sent: \x27" ++ message.pyStr ++ "\x27"

/-- A model reply after `json.loads` and field extraction:
`thought`, `tool`, and `args` (already defaulted to the empty dict). -/
structure ParsedReply where
  thought : PyVal
  tool : PyVal
  args : Args
deriving Repr

/-- The envelope returned by `process_message`: a success dictionary
(keys `thought`, `tool_used`, `tool_output`, `model_used`) or an error
dictionary (single key `error`). -/
inductive DispatchResult where
  | success (thought : PyVal) (tool_used : PyVal) (tool_output : String)
      (model_used : String)
  | failure (error : String)
deriving DecidableEq, Repr

/-- Result of one embedded agent step: the updated database, the returned
envelope, and the candidate models contacted, in order. -/
structure AgentStep where
  db : Db
  result : DispatchResult
  calls : List String
deriving DecidableEq, Repr

/-- The fixed ordered fallback list of `process_message`. -/
def candidate_models : List String :=
  ["gemini-2.5-flash", "gemini-2.0-flash", "gemini-1.5-flash"]

/-- The four-way tool dispatch of `process_message` (the if/elif chain on
`tool_name`), returning the updated database and `tool_output`. -/
def runTool (db : Db) (now : String) (tool_name : PyVal) (tool_args : Args) :
    Db × String :=
  if tool_name = PyVal.str "create_ticket" then
    create_ticket db now (tool_args.get "summary")
      (tool_args.getD "priority" (PyVal.str "Medium"))
  else if tool_name = PyVal.str "check_calendar" then
    (db, check_calendar db (tool_args.get "date_str"))
  else if tool_name = PyVal.str "generate_invoice" then
    generate_invoice db now (tool_args.get "client_name") (tool_args.get "amount")
  else if tool_name = PyVal.str "send_reply" then
    (db, send_reply (tool_args.get "message"))
  else
    (db, "Error: Unknown tool selected.")

/-- Python `str(last_error)`: the message, or `"None"` when no candidate was
ever tried. -/
def lastErrorStr : Option String → String
  | Option.some e => e
  | Option.none => "None"

/-- Python `repr` of a list of strings, as produced by the f-string
`\x7bavailable_models[:5]\x7d`. -/
def pyListRepr (l : List String) : String :=
  "[" ++ String.intercalate ", " (l.map (fun s => "\x27" ++ s ++ "\x27")) ++ "]"

/-- The terminal error envelope built after all candidates failed: a
best-effort `list_models` diagnostic enriches the message when it succeeds. -/
def allFailedMsg (listModelsOracle : Except String (List String))
    (lastError : Option String) : String :=
  match listModelsOracle with
  | .ok available_models =>
      "All models failed. Last error: " ++ lastErrorStr lastError ++
        ". Available: " ++ pyListRepr (available_models.take 5)
  | .error _ => "All models failed. Last error: " ++ lastErrorStr lastError

/-- The fallback loop of `process_message`: try each candidate in order; on
the first oracle success run the selected tool and return the success
envelope; on exception remember it as the last error and continue; when the
list is exhausted return the terminal error envelope. -/
def dispatchLoop (oracle : String → Except String ParsedReply)
    (listModelsOracle : Except String (List String)) (db : Db) (now : String) :
    List String → Option String → AgentStep
  | [], lastError =>
      { db := db, result := .failure (allFailedMsg listModelsOracle lastError),
        calls := [] }
  | model_name :: rest, lastError =>
      match oracle model_name with
      | .ok r =>
          let out := runTool db now r.tool r.args
          { db := out.1,
            result := .success r.thought r.tool out.2
              (model_name ++ " (Gemini SDK)"),
            calls := [model_name] }
      | .error e =>
          let res := dispatchLoop oracle listModelsOracle db now rest
            (Option.some e)
          { res with calls := model_name :: res.calls }

/-- Embedding of `process_message(user_message, api_key)`: reject a falsy
credential before any model call, otherwise run the fallback loop over the
fixed candidate list. -/
def process_message (oracle : String → Except String ParsedReply)
    (listModelsOracle : Except String (List String)) (db : Db) (now : String)
    (user_message : PyVal) (api_key : PyVal) : AgentStep :=
  let _ := user_message
  if api_key.truthy = false then
    { db := db, result := .failure "Missing API Key", calls := [] }
  else
    dispatchLoop oracle listModelsOracle db now candidate_models Option.none

/-- The JSON body returned by the `/process` route. -/
inductive RouteBody where
  | errBody (error : String)
  | okBody (thought : PyVal) (tool_used : PyVal) (tool_output : String)
      (model_used : String) (tickets : List Ticket)
deriving DecidableEq, Repr

/-- Result of one `/process` request: updated database, HTTP status, JSON
body, and the model calls issued. -/
structure RouteResult where
  db : Db
  status : Nat
  body : RouteBody
  calls : List String
deriving DecidableEq, Repr

/-- Embedding of the `/process` route of `app.py`: reject a falsy `api_key`
with 400 before invoking the brain; map an error envelope to 400 and a
success envelope to 200 with the reversed ticket registry. -/
def processRoute (oracle : String → Except String ParsedReply)
    (listModelsOracle : Except String (List String)) (db : Db) (now : String)
    (message : PyVal) (api_key : PyVal) : RouteResult :=
  if api_key.truthy = false then
    { db := db, status := 400, body := .errBody "Missing API Key", calls := [] }
  else
    let res := process_message oracle listModelsOracle db now message api_key
    match res.result with
    | .failure e =>
        { db := res.db, status := 400, body := .errBody e, calls := res.calls }
    | .success th tu tout mu =>
        { db := res.db, status := 200,
          body := .okBody th tu tout mu res.db.tickets.reverse,
          calls := res.calls }

/-- One direct call to an action function, with its arguments. -/
inductive Op where
  | createTicket (now : String) (summary priority : PyVal)
  | genInvoice (now : String) (client amount : PyVal)
  | checkCalendar (date_str : PyVal)
  | sendReply (message : PyVal)

/-- Apply one action call to the database, returning the new database and the
confirmation string (the read-only actions return the database unchanged,
exactly as the Python functions never assign to it). -/
def applyOp (db : Db) : Op → Db × String
  | .createTicket now s p => create_ticket db now s p
  | .genInvoice now c a => generate_invoice db now c a
  | .checkCalendar d => (db, check_calendar db d)
  | .sendReply m => (db, send_reply m)

/-- Run a sequence of direct action calls. -/
def runOps (db : Db) (ops : List Op) : Db :=
  ops.foldl (fun d op => (applyOp d op).1) db

/-- One full `process_message` request: the per-request oracles and inputs. -/
structure Request where
  oracle : String → Except String ParsedReply
  listModelsOracle : Except String (List String)
  now : String
  message : PyVal
  api_key : PyVal

/-- Run one request against the database. -/
def runRequest (db : Db) (req : Request) : AgentStep :=
  process_message req.oracle req.listModelsOracle db req.now req.message
    req.api_key

/-- Run a sequence of requests, threading the database. -/
def runRequests (db : Db) (reqs : List Request) : Db :=
  reqs.foldl (fun d req => (runRequest d req).db) db

/-! Helper development: decimal rendering by `Nat.repr` is injective, so the
generated ticket and invoice id strings are pairwise distinct. -/

/-- Numeric value of one decimal digit character. -/
def decDigit (c : Char) : Nat := c.toNat - 48

/-- Numeric value of a most-significant-first decimal digit string. -/
def decVal (l : List Char) : Nat := l.foldl (fun a c => 10 * a + decDigit c) 0

theorem toDigitsCore_shift (f : Nat) :
    ∀ (n : Nat) (ds : List Char),
      Nat.toDigitsCore 10 f n ds = Nat.toDigitsCore 10 f n [] ++ ds := by
  induction f with
  | zero => intro n ds; simp [Nat.toDigitsCore]
  | succ f ih =>
    intro n ds
    simp only [Nat.toDigitsCore]
    by_cases h : n / 10 = 0
    · simp [h]
    · simp only [h, if_false]
      rw [ih (n / 10) [Nat.digitChar (n % 10)],
        ih (n / 10) (Nat.digitChar (n % 10) :: ds), List.append_assoc]
      rfl

theorem decDigit_digitChar (m : Nat) (h : m < 10) :
    decDigit (Nat.digitChar m) = m := by
  interval_cases m <;> decide

theorem decVal_toDigitsCore (f : Nat) :
    ∀ n : Nat, n < f → decVal (Nat.toDigitsCore 10 f n []) = n := by
  induction f with
  | zero => intro n h; omega
  | succ f ih =>
    intro n hn
    simp only [Nat.toDigitsCore]
    by_cases h : n / 10 = 0
    · have hlt : n % 10 < 10 := Nat.mod_lt _ (by omega)
      simp [h, decVal, decDigit_digitChar _ hlt]
      omega
    · simp only [h, if_false]
      rw [toDigitsCore_shift]
      have hrec : n / 10 < f := by
        have := Nat.div_lt_self (by omega : 0 < n) (by omega : 1 < 10)
        omega
      have hmod : n % 10 < 10 := Nat.mod_lt _ (by omega)
      simp only [decVal, List.foldl_append, List.foldl]
      have := ih (n / 10) hrec
      simp only [decVal] at this
      rw [this, decDigit_digitChar _ hmod]
      omega

theorem nat_repr_inj {a b : Nat} (h : Nat.repr a = Nat.repr b) : a = b := by
  have ha : decVal (Nat.toDigits 10 a) = a :=
    decVal_toDigitsCore (a + 1) a (Nat.lt_succ_self a)
  have hb : decVal (Nat.toDigits 10 b) = b :=
    decVal_toDigitsCore (b + 1) b (Nat.lt_succ_self b)
  have hdata : Nat.toDigits 10 a = Nat.toDigits 10 b := congrArg String.data h
  rw [← ha, hdata, hb]

theorem string_append_left_cancel {s a b : String}
    (h : s ++ a = s ++ b) : a = b := by
  have : (s ++ a).data = (s ++ b).data := congrArg String.data h
  simp only [String.data_append] at this
  have := List.append_cancel_left this
  cases a; cases b; exact congrArg String.mk this

/-! Generated id strings. -/

/-- The ticket id generated when the registry currently holds `i` tickets. -/
def tickId (i : Nat) : String := "TICK-" ++ Nat.repr (i + 101)

/-- The invoice id generated when the registry currently holds `i` invoices. -/
def invId (i : Nat) : String := "INV-" ++ Nat.repr (i + 1001)

theorem tickId_inj : Function.Injective tickId := by
  intro a b h
  have h2 := nat_repr_inj (string_append_left_cancel h)
  omega

theorem invId_inj : Function.Injective invId := by
  intro a b h
  have h2 := nat_repr_inj (string_append_left_cancel h)
  omega

/-- The id column of the ticket registry. -/
def ticketIds (db : Db) : List String := db.tickets.map (fun t => t.id)

/-- The id column of the invoice registry. -/
def invoiceIds (db : Db) : List String := db.invoices.map (fun i => i.id)

/-! Frame lemmas for the tool dispatch. -/

theorem runTool_calendar (db : Db) (now : String) (t : PyVal) (a : Args) :
    (runTool db now t a).1.calendar = db.calendar := by
  unfold runTool
  split_ifs <;> simp [create_ticket, generate_invoice]

theorem dispatchLoop_calendar (oracle : String → Except String ParsedReply)
    (lmo : Except String (List String)) (db : Db) (now : String) :
    ∀ (ms : List String) (le : Option String),
      (dispatchLoop oracle lmo db now ms le).db.calendar = db.calendar := by
  intro ms
  induction ms with
  | nil => intro le; rfl
  | cons m rest ih =>
    intro le
    simp only [dispatchLoop]
    cases h : oracle m with
    | ok r => simp [runTool_calendar]
    | error e => simpa using ih (Option.some e)

theorem runRequest_calendar (db : Db) (req : Request) :
    (runRequest db req).db.calendar = db.calendar := by
  unfold runRequest process_message
  split
  · rfl
  · exact dispatchLoop_calendar _ _ _ _ _ _

theorem runOps_calendar (ops : List Op) :
    ∀ db : Db, (runOps db ops).calendar = db.calendar := by
  induction ops with
  | nil => intro db; rfl
  | cons op rest ih =>
    intro db
    have hstep : (applyOp db op).1.calendar = db.calendar := by
      cases op <;> simp [applyOp, create_ticket, generate_invoice]
    calc (runOps (applyOp db op).1 rest).calendar
        = (applyOp db op).1.calendar := ih _
      _ = db.calendar := hstep

/-- Tool dispatch on a name matching none of the four action functions:
database untouched, literal error text as output. -/
theorem runTool_unknown (db : Db) (now : String) (t : PyVal) (a : Args)
    (h : ∀ s ∈ ["create_ticket", "check_calendar", "generate_invoice",
      "send_reply"], t ≠ PyVal.str s) :
    runTool db now t a = (db, "Error: Unknown tool selected.") := by
  unfold runTool
  split_ifs with h1 h2 h3 h4
  · exact absurd h1 (h "create_ticket" (by simp))
  · exact absurd h2 (h "check_calendar" (by simp))
  · exact absurd h3 (h "generate_invoice" (by simp))
  · exact absurd h4 (h "send_reply" (by simp))
  · rfl

/-- The fallback loop on a candidate list that starts with failing candidates
followed by a succeeding one: the succeeding candidate's reply is dispatched,
and exactly the failing ones plus the succeeding one are contacted. -/
theorem dispatch_first_ok (oracle : String → Except String ParsedReply)
    (lmo : Except String (List String)) (db : Db) (now : String)
    (m : String) (rest : List String) (r : ParsedReply)
    (hm : oracle m = Except.ok r) :
    ∀ (pre : List String) (le : Option String),
      (∀ x ∈ pre, ∃ e, oracle x = Except.error e) →
      dispatchLoop oracle lmo db now (pre ++ m :: rest) le =
        { db := (runTool db now r.tool r.args).1,
          result := DispatchResult.success r.thought r.tool
            (runTool db now r.tool r.args).2 (m ++ " (Gemini SDK)"),
          calls := pre ++ [m] } := by
  intro pre
  induction pre with
  | nil =>
    intro le _
    simp [dispatchLoop, hm]
  | cons x pre ih =>
    intro le hpre
    obtain ⟨e, he⟩ := hpre x (by simp)
    have htail : ∀ y ∈ pre, ∃ e, oracle y = Except.error e := by
      intro y hy; exact hpre y (by simp [hy])
    simp only [List.cons_append, dispatchLoop, he, List.append_eq]
    rw [ih (Option.some e) htail]

/-! Ticket-registry step lemmas: a tool dispatch either leaves the ticket
registry alone or appends exactly one ticket, which is created with
status "Open". -/

theorem runTool_tickets (db : Db) (now : String) (t : PyVal) (a : Args) :
    (runTool db now t a).1.tickets = db.tickets ∨
    ∃ tk : Ticket, tk.status = "Open" ∧
      (runTool db now t a).1.tickets = db.tickets ++ [tk] := by
  unfold runTool
  split_ifs
  · right
    exact ⟨_, rfl, rfl⟩
  · left; rfl
  · left; simp [generate_invoice]
  · left; rfl
  · left; rfl

theorem dispatchLoop_tickets (oracle : String → Except String ParsedReply)
    (lmo : Except String (List String)) (db : Db) (now : String) :
    ∀ (ms : List String) (le : Option String),
      (dispatchLoop oracle lmo db now ms le).db.tickets = db.tickets ∨
      ∃ tk : Ticket, tk.status = "Open" ∧
        (dispatchLoop oracle lmo db now ms le).db.tickets = db.tickets ++ [tk] := by
  intro ms
  induction ms with
  | nil => intro le; left; rfl
  | cons m rest ih =>
    intro le
    simp only [dispatchLoop]
    cases h : oracle m with
    | ok r => simpa using runTool_tickets db now r.tool r.args
    | error e => simpa using ih (Option.some e)

theorem runRequest_tickets (db : Db) (req : Request) :
    (runRequest db req).db.tickets = db.tickets ∨
    ∃ tk : Ticket, tk.status = "Open" ∧
      (runRequest db req).db.tickets = db.tickets ++ [tk] := by
  unfold runRequest process_message
  split
  · left; rfl
  · exact dispatchLoop_tickets _ _ _ _ _ _

theorem runRequests_open (reqs : List Request) :
    ∀ db : Db, (∀ t ∈ db.tickets, t.status = "Open") →
      ∀ t ∈ (runRequests db reqs).tickets, t.status = "Open" := by
  induction reqs with
  | nil => intro db h; exact h
  | cons req rest ih =>
    intro db h
    refine ih _ ?_
    rcases runRequest_tickets db req with heq | ⟨tk, hst, heq⟩
    · rw [heq]; exact h
    · rw [heq]
      intro t ht
      rcases List.mem_append.mp ht with ht | ht
      · exact h t ht
      · rcases List.mem_singleton.mp ht with rfl
        exact hst

/-! The ticket and invoice id columns always follow the length-based
generation scheme when starting from the seeded database. -/

/-- Both id columns are exactly the generated sequences. -/
def regularIds (db : Db) : Prop :=
  ticketIds db = (List.range db.tickets.length).map tickId ∧
  invoiceIds db = (List.range db.invoices.length).map invId

theorem regularIds_initial : regularIds initial_db := ⟨rfl, rfl⟩

theorem regularIds_applyOp (db : Db) (op : Op) (h : regularIds db) :
    regularIds (applyOp db op).1 := by
  obtain ⟨ht, hi⟩ := h
  cases op with
  | createTicket now s p =>
    constructor
    · simp only [applyOp, ticketIds, create_ticket, List.map_append,
        List.length_append, List.length_cons, List.length_nil, List.map_cons,
        List.map_nil, List.range_succ]
      rw [ticketIds] at ht
      rw [ht]
      rfl
    · simp only [applyOp, invoiceIds, create_ticket]
      exact hi
  | genInvoice now c a =>
    constructor
    · simp only [applyOp, ticketIds, generate_invoice]
      exact ht
    · simp only [applyOp, invoiceIds, generate_invoice, List.map_append,
        List.length_append, List.length_cons, List.length_nil, List.map_cons,
        List.map_nil, List.range_succ]
      rw [invoiceIds] at hi
      rw [hi]
      rfl
  | checkCalendar d => exact ⟨ht, hi⟩
  | sendReply m => exact ⟨ht, hi⟩

theorem regularIds_runOps (ops : List Op) :
    ∀ db : Db, regularIds db → regularIds (runOps db ops) := by
  induction ops with
  | nil => intro db h; exact h
  | cons op rest ih => intro db h; exact ih _ (regularIds_applyOp db op h)

/-- C1: within one process lifetime (starting from the seeded database),
after any sequence of action calls the ticket id column is exactly
`TICK-(i+101)` for `i = 0, 1, ...` in insertion order and the invoice id
column is exactly `INV-(i+1001)`; hence each call produces the id derived
from the current registry length plus 101 (resp. 1001), the two id families
are duplicate-free, and their numeric suffixes are strictly increasing,
starting at 101 and 1001.  The last two conjuncts restate the per-call
confirmation strings: each call reports the id generated from the length of
its own registry at call time. -/
theorem ticket_invoice_id_sequence :
    (∀ ops : List Op,
      ticketIds (runOps initial_db ops) =
        (List.range (runOps initial_db ops).tickets.length).map tickId ∧
      invoiceIds (runOps initial_db ops) =
        (List.range (runOps initial_db ops).invoices.length).map invId ∧
      (ticketIds (runOps initial_db ops)).Nodup ∧
      (invoiceIds (runOps initial_db ops)).Nodup ∧
      List.Pairwise (· < ·)
        ((List.range (runOps initial_db ops).tickets.length).map
          (fun i => i + 101)) ∧
      List.Pairwise (· < ·)
        ((List.range (runOps initial_db ops).invoices.length).map
          (fun i => i + 1001))) ∧
    (∀ (db : Db) (now : String) (s p : PyVal),
      (create_ticket db now s p).2 =
        "Ticket created successfully. ID: " ++ tickId db.tickets.length) ∧
    (∀ (db : Db) (now : String) (c a : PyVal),
      (generate_invoice db now c a).2 =
        "Invoice generated for " ++ c.pyStr ++ " for $" ++ a.pyStr ++
          ". ID: " ++ invId db.invoices.length) := by
  refine ⟨?_, ?_, ?_⟩
  · intro ops
    obtain ⟨ht, hi⟩ := regularIds_runOps ops initial_db regularIds_initial
    refine ⟨ht, hi, ?_, ?_, ?_, ?_⟩
    · rw [ht]; exact List.Nodup.map tickId_inj (List.nodup_range _)
    · rw [hi]; exact List.Nodup.map invId_inj (List.nodup_range _)
    · exact List.Pairwise.map _ (fun a b h => by omega) (List.pairwise_lt_range _)
    · exact List.Pairwise.map _ (fun a b h => by omega) (List.pairwise_lt_range _)
  · intro db now s p; rfl
  · intro db now c a; rfl

/-- C3: a falsy credential (absent, i.e. `None`, or the empty string) makes
`process_message` return the error envelope `\x7b"error": "Missing API Key"\x7d`
with the database untouched and no model contacted, and makes the
`/process` route respond 400 with exactly that body, equally without
touching the database or contacting any model. -/
theorem missing_api_key_rejected
    (oracle : String → Except String ParsedReply)
    (lmo : Except String (List String)) (db : Db) (now : String) (msg : PyVal)
    (key : PyVal) (hk : key = PyVal.none ∨ key = PyVal.str "") :
    process_message oracle lmo db now msg key =
      { db := db, result := DispatchResult.failure "Missing API Key",
        calls := [] } ∧
    processRoute oracle lmo db now msg key =
      { db := db, status := 400, body := RouteBody.errBody "Missing API Key",
        calls := [] } := by
  rcases hk with rfl | rfl <;> exact ⟨rfl, rfl⟩

/-- Witness for C3 at the concrete request of the spec example: body
`\x7b"message": "book a demo"\x7d` with no `api_key`. -/
theorem missing_api_key_rejected_witness :
    process_message (fun _ => Except.error "net") (Except.error "net")
      initial_db "2024-01-01 00:00" (PyVal.str "book a demo") PyVal.none =
      { db := initial_db, result := DispatchResult.failure "Missing API Key",
        calls := [] } ∧
    processRoute (fun _ => Except.error "net") (Except.error "net")
      initial_db "2024-01-01 00:00" (PyVal.str "book a demo") PyVal.none =
      { db := initial_db, status := 400,
        body := RouteBody.errBody "Missing API Key", calls := [] } :=
  missing_api_key_rejected (fun _ => Except.error "net") (Except.error "net")
    initial_db "2024-01-01 00:00" (PyVal.str "book a demo") PyVal.none
    (Or.inl rfl)

/-- C6: the calendar registry starts seeded with exactly the two fixed
events; `check_calendar` on the seeded registry serializes exactly those two
events (for any `date_str`, which the implementation ignores); any sequence
of the four action calls leaves the calendar unchanged, as does any full
`process_message` request; moreover `create_ticket` mutates only the ticket
registry, `generate_invoice` only the invoice registry, and
`check_calendar`/`send_reply` mutate nothing. -/
theorem calendar_seeded_readonly :
    initial_db.calendar =
      [{ time := "2023-10-27 10:00", event := "Team Standup" },
       { time := "2023-10-27 14:00", event := "Client Call" }] ∧
    (∀ d : PyVal, check_calendar initial_db d =
      "Existing events: [\x7b\"time\": \"2023-10-27 10:00\", \"event\": \"Team Standup\"\x7d, \x7b\"time\": \"2023-10-27 14:00\", \"event\": \"Client Call\"\x7d]") ∧
    (∀ (db : Db) (ops : List Op), (runOps db ops).calendar = db.calendar) ∧
    (∀ (db : Db) (req : Request), (runRequest db req).db.calendar = db.calendar) ∧
    (∀ (db : Db) (now : String) (s p : PyVal),
      (create_ticket db now s p).1.invoices = db.invoices ∧
      (create_ticket db now s p).1.calendar = db.calendar) ∧
    (∀ (db : Db) (now : String) (c a : PyVal),
      (generate_invoice db now c a).1.tickets = db.tickets ∧
      (generate_invoice db now c a).1.calendar = db.calendar) ∧
    (∀ (db : Db) (d : PyVal), (applyOp db (Op.checkCalendar d)).1 = db) ∧
    (∀ (db : Db) (m : PyVal), (applyOp db (Op.sendReply m)).1 = db) := by
  refine ⟨rfl, fun d => rfl, fun db ops => runOps_calendar ops db,
    runRequest_calendar, fun db now s p => ⟨rfl, rfl⟩,
    fun db now c a => ⟨rfl, rfl⟩, fun db d => rfl, fun db m => rfl⟩

/-- C7: `send_reply` echoes the message inside the confirmation wrapper
`Reply sent: '...'`; on the spec's concrete structured response (tool
`send_reply`, args `\x7bmessage: "hello"\x7d`) the dispatched tool output is
exactly `Reply sent: 'hello'`, and a `send_reply` dispatch leaves the
database (all registries) unchanged. -/
theorem send_reply_echo :
    send_reply (PyVal.str "hello") = "Reply sent: \x27hello\x27" ∧
    (∀ m : PyVal, send_reply m = "Reply sent: \x27" ++ m.pyStr ++ "\x27") ∧
    (∀ (db : Db) (now : String),
      runTool db now (PyVal.str "send_reply")
        [("message", PyVal.str "hello")] = (db, "Reply sent: \x27hello\x27")) ∧
    (∀ (db : Db) (now : String) (a : Args),
      (runTool db now (PyVal.str "send_reply") a).1 = db) := by
  exact ⟨rfl, fun m => rfl, fun db now => rfl, fun db now a => rfl⟩

/-- C8: dispatching any of the four tools with a missing argument never
fails: the absent fields arrive as `None` (`PyVal.none`) in the string
formatting and the operation still returns its confirmation string.  All
four tools are dispatched here with the empty args dictionary: the created
ticket stores `None` as summary and the default `Medium` priority, the
invoice confirmation interpolates `None` for both client and amount, and
`send_reply` echoes `None`.  (In the embedding every operation is a total
function, mirroring that the Python code raises no exception on these
inputs.) -/
theorem missing_args_pass_through (db : Db) (now : String) :
    (∀ a : Args, Args.find a "summary" = Option.none →
      (runTool db now (PyVal.str "create_ticket") a).2 =
        "Ticket created successfully. ID: TICK-" ++
          Nat.repr (db.tickets.length + 101) ∧
      (runTool db now (PyVal.str "create_ticket") a).1.tickets =
        db.tickets ++
          [{ id := "TICK-" ++ Nat.repr (db.tickets.length + 101),
             summary := PyVal.none,
             priority := a.getD "priority" (PyVal.str "Medium"),
             status := "Open", created_at := now }]) ∧
    (∀ a : Args, Args.find a "client_name" = Option.none →
      Args.find a "amount" = Option.none →
      (runTool db now (PyVal.str "generate_invoice") a).2 =
        "Invoice generated for None for $None. ID: INV-" ++
          Nat.repr (db.invoices.length + 1001)) ∧
    (∀ a : Args, Args.find a "message" = Option.none →
      (runTool db now (PyVal.str "send_reply") a).2 =
        "Reply sent: \x27None\x27") ∧
    (∀ a : Args, (runTool db now (PyVal.str "check_calendar") a).2 =
      check_calendar db (a.get "date_str")) := by
  refine ⟨?_, ?_, ?_, fun a => rfl⟩
  · intro a hs
    refine ⟨rfl, ?_⟩
    show (create_ticket db now (a.get "summary")
      (a.getD "priority" (PyVal.str "Medium"))).1.tickets = _
    simp [create_ticket, Args.get, hs]
  · intro a hc ha
    show (generate_invoice db now (a.get "client_name")
      (a.get "amount")).2 = _
    simp [generate_invoice, Args.get, hc, ha]
    rfl
  · intro a hm
    show send_reply (a.get "message") = _
    simp [send_reply, Args.get, hm]
    rfl

/-- Witness for C8: the empty args dictionary omits every required field,
yet each operation still returns its confirmation (with `None`
interpolated). -/
theorem missing_args_pass_through_witness :
    ((runTool initial_db "t" (PyVal.str "generate_invoice") []).2 =
      "Invoice generated for None for $None. ID: INV-" ++
        Nat.repr (initial_db.invoices.length + 1001)) ∧
    ((runTool initial_db "t" (PyVal.str "send_reply") []).2 =
      "Reply sent: \x27None\x27") :=
  ⟨(missing_args_pass_through initial_db "t").2.1 [] rfl rfl,
   (missing_args_pass_through initial_db "t").2.2.1 [] rfl⟩

/-- With a truthy credential, `process_message` is exactly the fallback loop
over the fixed candidate list. -/
theorem process_message_truthy (oracle : String → Except String ParsedReply)
    (lmo : Except String (List String)) (db : Db) (now : String)
    (msg key : PyVal) (hkey : key.truthy = true) :
    process_message oracle lmo db now msg key =
      dispatchLoop oracle lmo db now candidate_models Option.none := by
  unfold process_message
  rw [hkey]
  simp

/-- C2: for any message and truthy credential, when the ordered candidate
list splits as failing candidates `pre` followed by a succeeding candidate
`m`, the loop contacts exactly `pre ++ [m]` (one attempt each, no later
candidate) and returns the success envelope whose `model_used` records the
succeeding candidate `m` (with the fixed ` (Gemini SDK)` suffix) — whatever
the parsed tool is, matched or not. -/
theorem first_success_stops (oracle : String → Except String ParsedReply)
    (lmo : Except String (List String)) (db : Db) (now : String)
    (msg key : PyVal) (hkey : key.truthy = true)
    (pre : List String) (m : String) (post : List String) (r : ParsedReply)
    (hsplit : candidate_models = pre ++ m :: post)
    (hpre : ∀ x ∈ pre, ∃ e, oracle x = Except.error e)
    (hm : oracle m = Except.ok r) :
    process_message oracle lmo db now msg key =
      { db := (runTool db now r.tool r.args).1,
        result := DispatchResult.success r.thought r.tool
          (runTool db now r.tool r.args).2 (m ++ " (Gemini SDK)"),
        calls := pre ++ [m] } := by
  rw [process_message_truthy oracle lmo db now msg key hkey, hsplit]
  exact dispatch_first_ok oracle lmo db now m post r hm pre Option.none hpre

/-- Concrete reply used by the C2 witness. -/
def replyW : ParsedReply :=
  { thought := PyVal.str "th", tool := PyVal.str "send_reply",
    args := [("message", PyVal.str "hello")] }

/-- Concrete oracle used by the C2 witness: candidates 1 and 2 fail, the
third succeeds. -/
def oracleW : String → Except String ParsedReply :=
  fun m => if m = "gemini-1.5-flash" then Except.ok replyW
    else Except.error "boom"

/-- Witness for C2: the spec scenario where candidates 1 and 2 fail and
candidate 3 succeeds; `model_used` reflects candidate 3 and exactly the
three candidates are contacted. -/
theorem first_success_stops_witness :
    process_message oracleW (Except.error "x") initial_db "t"
        (PyVal.str "msg") (PyVal.str "k") =
      { db := (runTool initial_db "t" replyW.tool replyW.args).1,
        result := DispatchResult.success replyW.thought replyW.tool
          (runTool initial_db "t" replyW.tool replyW.args).2
          ("gemini-1.5-flash" ++ " (Gemini SDK)"),
        calls := ["gemini-2.5-flash", "gemini-2.0-flash"] ++
          ["gemini-1.5-flash"] } :=
  first_success_stops oracleW (Except.error "x") initial_db "t"
    (PyVal.str "msg") (PyVal.str "k") rfl
    ["gemini-2.5-flash", "gemini-2.0-flash"] "gemini-1.5-flash" [] replyW rfl
    (by intro x hx; fin_cases hx <;> exact ⟨"boom", rfl⟩) rfl

/-- C4: when every candidate raises, the returned envelope is the error
envelope (the `failure` constructor: an `error` key and no `tool_used` key),
its message embeds the last-seen exception message `e3`; the second and
third conjuncts unfold the message: with a successful diagnostic
`list_models` call it appends up to 5 available model identifiers, and with
a failing diagnostic call it is just the last exception message.  All three
candidates are contacted. -/
theorem all_candidates_exhausted (oracle : String → Except String ParsedReply)
    (lmo : Except String (List String)) (db : Db) (now : String)
    (msg key : PyVal) (hkey : key.truthy = true) (e1 e2 e3 : String)
    (h1 : oracle "gemini-2.5-flash" = Except.error e1)
    (h2 : oracle "gemini-2.0-flash" = Except.error e2)
    (h3 : oracle "gemini-1.5-flash" = Except.error e3) :
    process_message oracle lmo db now msg key =
      { db := db,
        result := DispatchResult.failure (allFailedMsg lmo (Option.some e3)),
        calls := candidate_models } ∧
    (∀ l : List String, lmo = Except.ok l →
      allFailedMsg lmo (Option.some e3) =
        "All models failed. Last error: " ++ e3 ++ ". Available: " ++
          pyListRepr (l.take 5)) ∧
    (∀ err : String, lmo = Except.error err →
      allFailedMsg lmo (Option.some e3) =
        "All models failed. Last error: " ++ e3) := by
  refine ⟨?_, ?_, ?_⟩
  · rw [process_message_truthy oracle lmo db now msg key hkey]
    simp [candidate_models, dispatchLoop, h1, h2, h3]
  · intro l hl; subst hl; rfl
  · intro err he; subst he; rfl

/-- Concrete all-failing oracle used by the C4 witness. -/
def failOracle : String → Except String ParsedReply :=
  fun _ => Except.error "quota"

/-- Witness for C4: all candidates raise `quota`, the diagnostic call
succeeds with two available models; the envelope embeds the last error and
the rendered available list. -/
theorem all_candidates_exhausted_witness :
    process_message failOracle (Except.ok ["models/a", "models/b"]) initial_db
        "t" (PyVal.str "m") (PyVal.str "k") =
      { db := initial_db,
        result := DispatchResult.failure
          "All models failed. Last error: quota. Available: [\x27models/a\x27, \x27models/b\x27]",
        calls := candidate_models } := by
  have h := all_candidates_exhausted failOracle
    (Except.ok ["models/a", "models/b"]) initial_db "t" (PyVal.str "m")
    (PyVal.str "k") rfl "quota" "quota" "quota" rfl rfl rfl
  rw [h.1]
  rfl

/-- Concrete reply selecting a tool name the dispatcher does not recognize. -/
def unknownToolReply : ParsedReply :=
  { thought := PyVal.str "t", tool := PyVal.str "foo", args := [] }

/-- Oracle that always returns the unknown-tool reply. -/
def unknownToolOracle : String → Except String ParsedReply :=
  fun _ => Except.ok unknownToolReply

/-- Counterexample for C5 as stated: on a parsed reply whose tool is `foo`,
the success envelope's `tool_output` is the literal
`Error: Unknown tool selected.` produced by the code, which is not the
string `Unknown tool selected` the claim names. -/
theorem unknown_tool_literal_cex :
    (process_message unknownToolOracle (Except.error "x") initial_db "now"
        (PyVal.str "hi") (PyVal.str "key")).result =
      DispatchResult.success (PyVal.str "t") (PyVal.str "foo")
        "Error: Unknown tool selected." "gemini-2.5-flash (Gemini SDK)" ∧
    "Error: Unknown tool selected." ≠ "Unknown tool selected" :=
  ⟨rfl, by decide⟩

/-- C5 (amended): when the successfully parsed reply's tool matches none of
the four action function names, the loop does not fail the request: the
envelope is a success envelope (the `success` constructor — no `error` key)
whose `tool_output` is the literal string `Error: Unknown tool selected.`. -/
theorem unknown_tool_output_amended
    (oracle : String → Except String ParsedReply)
    (lmo : Except String (List String)) (db : Db) (now : String)
    (msg key : PyVal) (hkey : key.truthy = true)
    (pre : List String) (m : String) (post : List String) (r : ParsedReply)
    (hsplit : candidate_models = pre ++ m :: post)
    (hpre : ∀ x ∈ pre, ∃ e, oracle x = Except.error e)
    (hm : oracle m = Except.ok r)
    (htool : ∀ s ∈ ["create_ticket", "check_calendar", "generate_invoice",
      "send_reply"], r.tool ≠ PyVal.str s) :
    (process_message oracle lmo db now msg key).result =
      DispatchResult.success r.thought r.tool "Error: Unknown tool selected."
        (m ++ " (Gemini SDK)") := by
  rw [process_message_truthy oracle lmo db now msg key hkey, hsplit,
    dispatch_first_ok oracle lmo db now m post r hm pre Option.none hpre,
    runTool_unknown db now r.tool r.args htool]

/-- Witness for the amended C5 at the concrete unknown-tool scenario. -/
theorem unknown_tool_output_amended_witness :
    (process_message unknownToolOracle (Except.error "y") initial_db "t"
        (PyVal.str "hi") (PyVal.str "k")).result =
      DispatchResult.success unknownToolReply.thought unknownToolReply.tool
        "Error: Unknown tool selected."
        ("gemini-2.5-flash" ++ " (Gemini SDK)") :=
  unknown_tool_output_amended unknownToolOracle (Except.error "y") initial_db
    "t" (PyVal.str "hi") (PyVal.str "k") rfl [] "gemini-2.5-flash"
    ["gemini-2.0-flash", "gemini-1.5-flash"] unknownToolReply rfl
    (by intro x hx; exact absurd hx (List.not_mem_nil x)) rfl
    (by intro s hs; fin_cases hs <;> decide)

/-- C10: when the parsed reply's tool matches none of the four action
functions, no action is executed: the returned database is exactly the input
database (all three registries unchanged), and the success envelope's
`tool_used` is the unrecognized tool value verbatim (`r.tool`, which is
`PyVal.none` when the reply had no tool key). -/
theorem unknown_tool_no_effect
    (oracle : String → Except String ParsedReply)
    (lmo : Except String (List String)) (db : Db) (now : String)
    (msg key : PyVal) (hkey : key.truthy = true)
    (pre : List String) (m : String) (post : List String) (r : ParsedReply)
    (hsplit : candidate_models = pre ++ m :: post)
    (hpre : ∀ x ∈ pre, ∃ e, oracle x = Except.error e)
    (hm : oracle m = Except.ok r)
    (htool : ∀ s ∈ ["create_ticket", "check_calendar", "generate_invoice",
      "send_reply"], r.tool ≠ PyVal.str s) :
    process_message oracle lmo db now msg key =
      { db := db,
        result := DispatchResult.success r.thought r.tool
          "Error: Unknown tool selected." (m ++ " (Gemini SDK)"),
        calls := pre ++ [m] } := by
  rw [process_message_truthy oracle lmo db now msg key hkey, hsplit,
    dispatch_first_ok oracle lmo db now m post r hm pre Option.none hpre,
    runTool_unknown db now r.tool r.args htool]

/-- Reply with no tool key at all: `result_json.get("tool")` is `None`. -/
def noToolReply : ParsedReply :=
  { thought := PyVal.none, tool := PyVal.none, args := [] }

/-- Oracle that always returns the no-tool reply. -/
def noToolOracle : String → Except String ParsedReply :=
  fun _ => Except.ok noToolReply

/-- Witness for C10: a reply without a tool key leaves the whole database
unchanged and is echoed verbatim (`tool_used = None`). -/
theorem unknown_tool_no_effect_witness :
    process_message noToolOracle (Except.error "x") initial_db "t"
        (PyVal.str "m") (PyVal.str "k") =
      { db := initial_db,
        result := DispatchResult.success PyVal.none PyVal.none
          "Error: Unknown tool selected."
          ("gemini-2.5-flash" ++ " (Gemini SDK)"),
        calls := [] ++ ["gemini-2.5-flash"] } :=
  unknown_tool_no_effect noToolOracle (Except.error "x") initial_db "t"
    (PyVal.str "m") (PyVal.str "k") rfl [] "gemini-2.5-flash"
    ["gemini-2.0-flash", "gemini-1.5-flash"] noToolReply rfl
    (by intro x hx; exact absurd hx (List.not_mem_nil x)) rfl
    (by intro s hs; fin_cases hs <;> decide)

/-- Reply that creates a ticket with a priority outside the documented enum. -/
def urgentReply : ParsedReply :=
  { thought := PyVal.none, tool := PyVal.str "create_ticket",
    args := [("summary", PyVal.str "s"), ("priority", PyVal.str "Urgent")] }

/-- Oracle that always returns the out-of-enum-priority reply. -/
def urgentOracle : String → Except String ParsedReply :=
  fun _ => Except.ok urgentReply

/-- A full request carrying the out-of-enum-priority reply. -/
def urgentRequest : Request :=
  { oracle := urgentOracle, listModelsOracle := Except.error "x",
    now := "2024-01-01 00:00", message := PyVal.str "m",
    api_key := PyVal.str "k" }

/-- Counterexample for C9 as stated: the code performs no validation of the
model-supplied priority, so a single request whose parsed args carry
`priority: "Urgent"` puts a ticket into the registry whose priority is none
of Low, Medium, High. -/
theorem ticket_priority_enum_cex :
    ∃ t ∈ (runRequest initial_db urgentRequest).db.tickets,
      t.priority ≠ PyVal.str "Low" ∧ t.priority ≠ PyVal.str "Medium" ∧
        t.priority ≠ PyVal.str "High" := by
  decide

/-- C9 (amended): every ticket ever present in the registry (starting from
the seeded database, under arbitrary requests) has status `"Open"`; the
ticket registry is append-only across requests (an existing ticket is never
mutated or deleted); and a create dispatch whose args omit `priority`
appends a ticket with the default priority `"Medium"`.  The priority is
otherwise the model-supplied value verbatim, not constrained to the
documented Low/Medium/High enum. -/
theorem tickets_open_append_only :
    (∀ reqs : List Request, ∀ t ∈ (runRequests initial_db reqs).tickets,
      t.status = "Open") ∧
    (∀ (db : Db) (req : Request),
      db.tickets <+: (runRequest db req).db.tickets) ∧
    (∀ (db : Db) (now : String) (a : Args),
      Args.find a "priority" = Option.none →
      (runTool db now (PyVal.str "create_ticket") a).1.tickets =
        db.tickets ++
          [{ id := "TICK-" ++ Nat.repr (db.tickets.length + 101),
             summary := a.get "summary", priority := PyVal.str "Medium",
             status := "Open", created_at := now }]) := by
  refine ⟨?_, ?_, ?_⟩
  · intro reqs
    exact runRequests_open reqs initial_db
      (fun t ht => absurd ht (List.not_mem_nil t))
  · intro db req
    rcases runRequest_tickets db req with heq | ⟨tk, _, heq⟩
    · rw [heq]
    · rw [heq]; exact List.prefix_append _ _
  · intro db now a hfind
    show (create_ticket db now (a.get "summary")
      (a.getD "priority" (PyVal.str "Medium"))).1.tickets = _
    simp [create_ticket, Args.getD, hfind]

/-- Witness for the amended C9: creating a ticket with empty args appends an
open ticket with the default `Medium` priority. -/
theorem tickets_open_append_only_witness :
    (runTool initial_db "2024-01-01 00:00" (PyVal.str "create_ticket")
        []).1.tickets =
      initial_db.tickets ++
        [{ id := "TICK-" ++ Nat.repr (initial_db.tickets.length + 101),
           summary := Args.get [] "summary", priority := PyVal.str "Medium",
           status := "Open", created_at := "2024-01-01 00:00" }] :=
  tickets_open_append_only.2.2 initial_db "2024-01-01 00:00" [] rfl
